import Mathlib

/-!
# Verification of the fleet-maintenance logging backend

Shallow embedding of `backend/server.py`, `backend/models.py` and the relevant
interface of `backend/google_sync.py`.  Python strings are modelled as `List Char`
(`Str`), Python `None`-able values as `Option`, dictionaries with a fixed key set
as structures, and the external collaborators (Google Drive upload, sheet append)
as an explicit environment of `Except`-valued functions.
-/

set_option maxHeartbeats 1000000

namespace VehicleMaintenance

/-- Python strings, modelled as their list of code points. -/
abbrev Str := List Char

instance {ε α : Type} [DecidableEq ε] [DecidableEq α] :
    DecidableEq (Except ε α) := fun x y =>
  match x, y with
  | .ok a, .ok b =>
    if h : a = b then isTrue (by rw [h]) else isFalse (by simp [h])
  | .error a, .error b =>
    if h : a = b then isTrue (by rw [h]) else isFalse (by simp [h])
  | .ok _, .error _ => isFalse (by simp)
  | .error _, .ok _ => isFalse (by simp)

/-- Characters stripped by Python `str.strip()` (ASCII whitespace). -/
def isWs (c : Char) : Bool :=
  c = ' ' || c = '\t' || c = '\n' || c = '\r' || c = '\x0b' || c = '\x0c'

/-- Python `s.strip()`: drop whitespace from both ends. -/
def pyStrip (s : Str) : Str :=
  ((s.dropWhile isWs).reverse.dropWhile isWs).reverse

/-- Python `s.lower()` (applied per character). -/
def pyLower (s : Str) : Str := s.map Char.toLower

/-- Python `s.split(c)` for a one-character separator: split on every
occurrence, keeping empty pieces. -/
def splitCh (c : Char) : Str → List Str
  | [] => [[]]
  | a :: as =>
    if a = c then [] :: splitCh c as
    else
      match splitCh c as with
      | [] => [[a]]
      | h :: t => (a :: h) :: t

/-- Python `sep.join(xs)`. -/
def pyJoin (sep : Str) : List Str → Str
  | [] => []
  | [x] => x
  | x :: xs => x ++ sep ++ pyJoin sep xs

/-- Locate the first occurrence of `sep` in `s`; return the pieces before and
after it.  `none` when `sep` does not occur (Python `sep in s` is false). -/
def findSplit (sep : Str) : Str → Option (Str × Str)
  | [] => if sep = [] then some ([], []) else none
  | c :: cs =>
    if sep.isPrefixOf (c :: cs) then some ([], (c :: cs).drop sep.length)
    else (findSplit sep cs).map fun p => (c :: p.1, p.2)

/-- Python `sep in s` (substring containment). -/
def containsSub (sep s : Str) : Bool := (findSplit sep s).isSome

/-- Python `s.split(sep, 1)`: at most one split, at the first occurrence. -/
def splitMax1 (sep s : Str) : List Str :=
  match findSplit sep s with
  | some (a, b) => [a, b]
  | none => [s]

/-- One entry of the decoded readable list: the dict
`\x7bposition, number\x7d` built by `_parse_readable_list`. -/
structure ReadableEntry where
  position : Str
  number : Str
deriving DecidableEq, Repr

/-- One entry of the decoded links list: the dict
`\x7bposition, photo_link\x7d` built by `_parse_links_list_as_strings`. -/
structure LinkEntry where
  position : Str
  photo_link : Str
deriving DecidableEq, Repr

/-- Body of the per-line parse in `_parse_readable_list` (server.py:133-138):
split on the first `:` when present, stripping both sides; a line with no
colon becomes the position with an empty number. -/
def parseReadableLine (line : Str) : ReadableEntry :=
  match findSplit [':'] line with
  | some (pos, num) => ⟨pyStrip pos, pyStrip num⟩
  | none => ⟨line, []⟩

/-- `_parse_readable_list` (server.py:127-139): guard on the empty string, split
the blob on newlines, strip each line, drop blank lines, parse each line. -/
def parse_readable_list (readable_str : Str) : List ReadableEntry :=
  if readable_str = [] then []
  else
    ((((splitCh '\n' readable_str).map pyStrip).filter fun l => !l.isEmpty).map
      parseReadableLine)

/-- Body of the per-line parse in `_parse_links_list_as_strings`
(server.py:148-156): split on the first `": "` when present, else on the first
`":"`; the placeholder `(no photo)` and the empty string normalise to an empty
link.  (The Python `link is None` test is vacuous on `str` values.) -/
def parseLinksLine (line : Str) : LinkEntry :=
  let parts :=
    if containsSub (": ").toList line then splitMax1 (": ").toList line
    else splitMax1 (":").toList line
  match parts with
  | [pos, link] =>
    let pos := pyStrip pos
    let link := pyStrip link
    let link := if link = ("(no photo)").toList ∨ link = [] then [] else link
    ⟨pos, link⟩
  | _ => ⟨pyStrip (parts.headD []), []⟩

/-- `_parse_links_list_as_strings` (server.py:142-157). -/
def parse_links_list_as_strings (links_str : Str) : List LinkEntry :=
  if links_str = [] then []
  else
    ((((splitCh '\n' links_str).map pyStrip).filter fun l => !l.isEmpty).map
      parseLinksLine)

/-- The readable encoding of one tyre entry, `f"\x7bt.position\x7d: \x7bt.number\x7d"`
(server.py:296). -/
def readableLine (e : ReadableEntry) : Str :=
  e.position ++ (": ").toList ++ e.number

/-- The readable-list encoder used by `submit_maintenance`: one line per entry,
joined with newlines (server.py:294-296, 344). -/
def encode_readable (l : List ReadableEntry) : Str :=
  pyJoin ['\n'] (l.map readableLine)

/-- Input to the link-list encoder: a position together with the resolved link,
`none` when no photo was supplied (so no upload produced a link). -/
structure LinkInput where
  position : Str
  link : Option Str
deriving DecidableEq, Repr

/-- The link encoding of one entry: `f"\x7bpos\x7d: \x7blink\x7d"` when an upload ran,
`f"\x7bpos\x7d: (no photo)"` otherwise (server.py:297-305). -/
def linkLine (e : LinkInput) : Str :=
  match e.link with
  | some l => e.position ++ (": ").toList ++ l
  | none => e.position ++ (": (no photo)").toList

/-- The link-list encoder used by `submit_maintenance`: one line per entry,
joined with newlines (server.py:297-305, 345). -/
def encode_links (l : List LinkInput) : Str :=
  pyJoin ['\n'] (l.map linkLine)

/-- The normalisation the spec assigns to decoded links: absent, empty and the
`(no photo)` placeholder all become the empty link. -/
def normalizeLink : Option Str → Str
  | none => []
  | some s => if s = ("(no photo)").toList then [] else s

/-- `TyreInfo` (models.py:4-8). -/
structure TyreInfo where
  position : Str
  number : Str := []
  photo_base64 : Option Str := none
  photo_link : Option Str := none
deriving DecidableEq, Repr

/-- `VehicleImage` (models.py:10-13). -/
structure VehicleImage where
  position : Str
  photo_base64 : Option Str := none
  photo_link : Option Str := none
deriving DecidableEq, Repr

/-- `UserInfo` (models.py:15-18). -/
structure UserInfo where
  user_id : Str
  email : Str
  full_name : Str
deriving DecidableEq, Repr

/-- `MaintenanceSubmitRequest` (models.py:20-30), after pydantic validation. -/
structure MaintenanceSubmitRequest where
  vehicle_number : Str
  battery1_number : Str := []
  battery1_photo_base64 : Option Str := none
  battery2_number : Str := []
  battery2_photo_base64 : Option Str := none
  odometer_value : Option Str := none
  odometer_photo_base64 : Option Str := none
  prime_tyres : List TyreInfo := []
  trailer_tyres : List TyreInfo := []
  vehicle_images : List VehicleImage := []
deriving DecidableEq, Repr

/-- `MaintenanceSubmitResponse` (models.py:32-35). -/
structure MaintenanceSubmitResponse where
  success : Bool
  message : Str
  record_id : Str
deriving DecidableEq, Repr

/-- The raw JSON body of a submit request, before pydantic validation: every
field may be absent (`none`). -/
structure RawSubmitPayload where
  vehicle_number : Option Str := none
  battery1_number : Option Str := none
  battery1_photo_base64 : Option Str := none
  battery2_number : Option Str := none
  battery2_photo_base64 : Option Str := none
  odometer_value : Option Str := none
  odometer_photo_base64 : Option Str := none
  prime_tyres : Option (List TyreInfo) := none
  trailer_tyres : Option (List TyreInfo) := none
  vehicle_images : Option (List VehicleImage) := none
deriving DecidableEq, Repr

/-- Pydantic validation of `MaintenanceSubmitRequest` (models.py:20-30): the
one field without a default, `vehicle_number : str`, is required — a missing
field is rejected; every other field falls back to its declared default.
Pydantic places no constraint on the *content* of `vehicle_number`, so the
empty string passes. -/
def validateSubmitRequest (raw : RawSubmitPayload) :
    Except Str MaintenanceSubmitRequest :=
  match raw.vehicle_number with
  | none => .error ("field required: vehicle_number").toList
  | some v =>
    .ok
      { vehicle_number := v
        battery1_number := raw.battery1_number.getD []
        battery1_photo_base64 := raw.battery1_photo_base64
        battery2_number := raw.battery2_number.getD []
        battery2_photo_base64 := raw.battery2_photo_base64
        odometer_value := raw.odometer_value
        odometer_photo_base64 := raw.odometer_photo_base64
        prime_tyres := raw.prime_tyres.getD []
        trailer_tyres := raw.trailer_tyres.getD []
        vehicle_images := raw.vehicle_images.getD [] }

/-- A Google-Sheet row as produced by `read_sheet_logs`
(google_sync.py:125-152): a header-to-value dictionary, modelled as a partial
map from header to cell text. -/
def Row := Str → Option Str

/-- Build a `Row` from header/value pairs (first binding wins, as in a dict
whose keys are distinct). -/
def rowOf (l : List (Str × Str)) : Row :=
  fun k => (l.find? fun p => p.1 == k).map (·.2)

/-- The `get` helper of `sheet_row_to_json` (server.py:165): the value of the
first key present in the row, else the empty string.  A present-but-empty cell
is returned as is (it is not `None`). -/
def rowGet (row : Row) : List Str → Str
  | [] => []
  | k :: ks =>
    match row k with
    | some v => v
    | none => rowGet row ks

/-- Python `s or ""` on a string: the empty string stays empty, anything else
is returned unchanged. -/
def orEmptyStr (s : Str) : Str := if s = [] then [] else s

/-- Python `v or ""` on an optional string. -/
def orEmptyOpt (o : Option Str) : Str :=
  match o with
  | some s => orEmptyStr s
  | none => []

/-- The nested `created_by` object built by `sheet_row_to_json`
(server.py:206-210). -/
structure CreatedBy where
  user_id : Str
  email : Str
  name : Str
deriving DecidableEq, Repr

/-- The Mongo-like JSON shape returned by `sheet_row_to_json`
(server.py:213-234). -/
structure SheetRecord where
  record_id : Str
  timestamp : Str
  vehicle_number : Str
  battery1_number : Str
  battery1_photo_link : Str
  battery2_number : Str
  battery2_photo_link : Str
  odometer_value : Str
  odometer_photo_link : Str
  prime_tyres : List ReadableEntry
  prime_tyre_links : List LinkEntry
  trailer_tyres : List ReadableEntry
  trailer_tyre_links : List LinkEntry
  vehicle_images : List ReadableEntry
  vehicle_image_links : List LinkEntry
  created_by : CreatedBy
  created_by_user_id : Str
  created_by_email : Str
  created_by_name : Str
  synced_to_sheets : Bool
deriving DecidableEq, Repr

/-- `sheet_row_to_json` (server.py:160-234): copy the scalar columns through
the header-alias lists, decode the readable and link columns, and mark the
record as synced unconditionally. -/
def sheet_row_to_json (row : Row) : SheetRecord :=
  let record_id := rowGet row [("Record ID").toList, ("record_id").toList]
  let timestamp := rowGet row [("Timestamp").toList, ("timestamp").toList]
  let vehicle_number :=
    rowGet row [("Vehicle Number").toList, ("vehicle_number").toList]
  let battery1_number := orEmptyStr (rowGet row
    [("Battery1 Number").toList, ("Battery 1 Number").toList,
      ("battery1_number").toList])
  let battery1_photo_link := orEmptyStr (rowGet row
    [("Battery1 Image Link").toList, ("Battery1 Photo Link").toList,
      ("battery1_photo_link").toList])
  let battery2_number := orEmptyStr (rowGet row
    [("Battery2 Number").toList, ("Battery 2 Number").toList,
      ("battery2_number").toList])
  let battery2_photo_link := orEmptyStr (rowGet row
    [("Battery2 Image Link").toList, ("Battery2 Photo Link").toList,
      ("battery2_photo_link").toList])
  let odometer_value :=
    orEmptyStr (rowGet row [("Odometer Value").toList, ("odometer_value").toList])
  let odometer_photo_link := orEmptyStr (rowGet row
    [("Odometer Image Link").toList, ("Odometer Image Link").toList,
      ("odometer_photo_link").toList])
  let prime_readable_col := rowGet row
    [("Prime Tyres (Readable)").toList, ("Prime Tyres (Readable)").toList,
      ("Prime Tyres").toList, []]
  let prime_links_col :=
    rowGet row [("Prime Tyre Links").toList, ("Prime Tyre Links").toList, []]
  let trailer_readable_col := rowGet row
    [("Trailer Tyres (Readable)").toList, ("Trailer Tyres (Readable)").toList, []]
  let trailer_links_col :=
    rowGet row [("Trailer Tyre Links").toList, ("Trailer Tyre Links").toList, []]
  let vehicle_readable_col := rowGet row
    [("Vehicle Images (Readable)").toList, ("Vehicle Images (Readable)").toList,
      ("Vehicle Images").toList, []]
  let vehicle_links_col :=
    rowGet row [("Vehicle Image Links").toList, ("Vehicle Image Links").toList, []]
  let created_by_user_id := orEmptyStr (rowGet row
    [("CreatedBy_userId").toList, ("CreatedBy_userId").toList,
      ("created_by_user_id").toList])
  let created_by_email := orEmptyStr (rowGet row
    [("CreatedBy_email").toList, ("CreatedBy_email").toList,
      ("created_by_email").toList])
  let created_by_name := orEmptyStr (rowGet row
    [("CreatedBy_name").toList, ("CreatedBy_name").toList,
      ("created_by_name").toList])
  { record_id := record_id
    timestamp := timestamp
    vehicle_number := vehicle_number
    battery1_number := battery1_number
    battery1_photo_link := battery1_photo_link
    battery2_number := battery2_number
    battery2_photo_link := battery2_photo_link
    odometer_value := odometer_value
    odometer_photo_link := odometer_photo_link
    prime_tyres := parse_readable_list prime_readable_col
    prime_tyre_links := parse_links_list_as_strings prime_links_col
    trailer_tyres := parse_readable_list trailer_readable_col
    trailer_tyre_links := parse_links_list_as_strings trailer_links_col
    vehicle_images := parse_readable_list vehicle_readable_col
    vehicle_image_links := parse_links_list_as_strings vehicle_links_col
    created_by := ⟨created_by_user_id, created_by_email, created_by_name⟩
    created_by_user_id := created_by_user_id
    created_by_email := created_by_email
    created_by_name := created_by_name
    synced_to_sheets := true }

/-- Result body of the `GET /maintenance/logs` handler (server.py:382-390). -/
structure LogsResult where
  logs : List SheetRecord
deriving DecidableEq, Repr

/-- `get_logs` (server.py:382-390).  The handler signature declares no
`vehicle` query parameter, so any `?vehicle=` filter sent by a client is
ignored by the framework; the handler transforms and returns every sheet row
in source order.  The ignored query parameter is kept as an argument here to
make that visible. -/
def get_logs (vehicle : Option Str) (rows : List Row) : LogsResult :=
  let _ := vehicle
  { logs := rows.map sheet_row_to_json }

/-- The non-error values produced inside the `try` of `get_single_log`: either
one record (exact id match) or a `logs` list (vehicle-substring fallback). -/
inductive SingleLogValue where
  | record (r : SheetRecord)
  | logs (rs : List SheetRecord)
deriving DecidableEq, Repr

/-- The body of the `try` block of `get_single_log` (server.py:398-412):
exact match on the stripped `record_id` first, else case-insensitive substring
match on `vehicle_number`; when both fail it raises `HTTPException(404)`. -/
def get_single_log_inner (identifier : Str) (rows : List Row) :
    Except (Nat × Str) SingleLogValue :=
  let transformed := rows.map sheet_row_to_json
  match transformed.find? fun r => pyStrip (orEmptyStr r.record_id) == identifier with
  | some m => .ok (.record m)
  | none =>
    let vehicleMatches := transformed.filter fun r =>
      containsSub (pyLower identifier) (pyLower (orEmptyStr r.vehicle_number))
    if vehicleMatches.isEmpty then .error (404, ("Record not found").toList)
    else .ok (.logs vehicleMatches)

/-- `get_single_log` (server.py:396-416).  The handler's blanket
`except Exception` (server.py:414) also catches the `HTTPException(404)`
raised inside the `try` — FastAPI's `HTTPException` is an `Exception`
subclass and there is no `except HTTPException: raise` arm here — so every
error path, the not-found one included, is re-raised as
`HTTPException(500, "Failed to fetch log")`. -/
def get_single_log (identifier : Str) (rows : List Row) :
    Except (Nat × Str) SingleLogValue :=
  match get_single_log_inner identifier rows with
  | .ok v => .ok v
  | .error _ => .error (500, ("Failed to fetch log").toList)

/-- The `log_data` dictionary assembled by `submit_maintenance`
(server.py:251-268). -/
structure LogData where
  record_id : Str
  timestamp : Str
  vehicle_number : Str
  battery1_number : Str
  battery1_photo_link : Option Str
  battery2_number : Str
  battery2_photo_link : Option Str
  odometer_value : Option Str
  odometer_photo_link : Option Str
  prime_tyres : List TyreInfo
  trailer_tyres : List TyreInfo
  vehicle_images : List VehicleImage
  created_by_user_id : Str
  created_by_email : Str
  created_by_name : Str
  synced_to_sheets : Bool
deriving DecidableEq, Repr

/-- The initial `log_data` value (server.py:251-268): all photo links unset,
`synced_to_sheets` false, tyre and image lists copied from the request
(`model_dump` of each entry). -/
def initLogData (req : MaintenanceSubmitRequest) (user : UserInfo)
    (rid ts : Str) : LogData :=
  { record_id := rid
    timestamp := ts
    vehicle_number := req.vehicle_number
    battery1_number := req.battery1_number
    battery1_photo_link := none
    battery2_number := req.battery2_number
    battery2_photo_link := none
    odometer_value := req.odometer_value
    odometer_photo_link := none
    prime_tyres := req.prime_tyres
    trailer_tyres := req.trailer_tyres
    vehicle_images := req.vehicle_images
    created_by_user_id := user.user_id
    created_by_email := user.email
    created_by_name := user.full_name
    synced_to_sheets := false }

/-- The external collaborators used by the sync block: `upload_base64_image`
and `append_row_to_sheet` (google_sync.py), each of which may raise. -/
structure SyncEnv where
  upload : Option Str → Str → Except Str Str
  append : List Str → Except Str Unit

/-- Python truthiness of an optional string (`if t.photo_base64:`). -/
def pyTruthy (o : Option Str) : Bool :=
  match o with
  | none => false
  | some s => !s.isEmpty

/-- Python `link or None`: an empty link becomes `None` (server.py:289-291). -/
def strToOptLink (s : Str) : Option Str :=
  if s = [] then none else some s

/-- The per-tyre loop of the sync block (server.py:294-318): build the
readable line for every tyre, upload the photo when one is present (the line
then carries the returned link), otherwise emit the `(no photo)` placeholder.
An upload that raises aborts the whole loop, as in Python. -/
def tyreLines (env : SyncEnv) (pre vehicle rid : Str) :
    List TyreInfo → Except Str (List Str × List Str)
  | [] => .ok ([], [])
  | t :: ts => do
    let readable := t.position ++ (": ").toList ++ t.number
    let linkL ←
      if pyTruthy t.photo_base64 then do
        let link ← env.upload t.photo_base64
          (pre ++ ("_").toList ++ vehicle ++ ("_").toList ++ t.position ++
            ("_").toList ++ rid ++ (".jpg").toList)
        pure (t.position ++ (": ").toList ++ link)
      else
        pure (t.position ++ (": (no photo)").toList)
    let (rs, ls) ← tyreLines env pre vehicle rid ts
    .ok (readable :: rs, linkL :: ls)

/-- The vehicle-image loop of the sync block (server.py:320-331): the readable
line is the bare position; links as for tyres. -/
def imageLines (env : SyncEnv) (vehicle rid : Str) :
    List VehicleImage → Except Str (List Str × List Str)
  | [] => .ok ([], [])
  | v :: vs => do
    let readable := v.position
    let linkL ←
      if pyTruthy v.photo_base64 then do
        let link ← env.upload v.photo_base64
          (("vehicle_").toList ++ vehicle ++ ("_").toList ++ v.position ++
            ("_").toList ++ rid ++ (".jpg").toList)
        pure (v.position ++ (": ").toList ++ link)
      else
        pure (v.position ++ (": (no photo)").toList)
    let (rs, ls) ← imageLines env vehicle rid vs
    .ok (readable :: rs, linkL :: ls)

/-- The `try` block guarded by `if USE_GOOGLE_SHEETS` (server.py:270-359),
with the Python mutation points made explicit: the three battery/odometer
uploads run first, then their links are written onto `log_data`
(server.py:289-291), then the three encoding loops run, then the assembled
row is appended, and only then is `synced_to_sheets` flipped (server.py:356).
The first component reports the exception swallowed by the
`except Exception` arm (server.py:358-359), `none` when the block completed;
the second component is the `log_data` state after the block, mutations made
before the raise included. -/
def runSyncE (env : SyncEnv) (req : MaintenanceSubmitRequest) (user : UserInfo)
    (rid ts : Str) (log0 : LogData) : Option Str × LogData :=
  match env.upload req.battery1_photo_base64
    (("battery1_").toList ++ req.vehicle_number ++ ("_").toList ++ rid ++
      (".jpg").toList) with
  | .error e => (some e, log0)
  | .ok battery1_link =>
    match env.upload req.battery2_photo_base64
      (("battery2_").toList ++ req.vehicle_number ++ ("_").toList ++ rid ++
        (".jpg").toList) with
    | .error e => (some e, log0)
    | .ok battery2_link =>
      match env.upload req.odometer_photo_base64
        (("odometer_").toList ++ req.vehicle_number ++ ("_").toList ++ rid ++
          (".jpg").toList) with
      | .error e => (some e, log0)
      | .ok odometer_link =>
        let log1 := { log0 with
          battery1_photo_link := strToOptLink battery1_link
          battery2_photo_link := strToOptLink battery2_link
          odometer_photo_link := strToOptLink odometer_link }
        match tyreLines env ("prime").toList req.vehicle_number rid
          req.prime_tyres with
        | .error e => (some e, log1)
        | .ok (prime_readable, prime_links) =>
          match tyreLines env ("trailer").toList req.vehicle_number rid
            req.trailer_tyres with
          | .error e => (some e, log1)
          | .ok (trailer_readable, trailer_links) =>
            match imageLines env req.vehicle_number rid req.vehicle_images with
            | .error e => (some e, log1)
            | .ok (vehicle_readable, vehicle_links) =>
              let row := [rid, ts, req.vehicle_number,
                orEmptyStr req.battery1_number, orEmptyStr battery1_link,
                orEmptyStr req.battery2_number, orEmptyStr battery2_link,
                orEmptyOpt req.odometer_value, orEmptyStr odometer_link,
                pyJoin ['\n'] prime_readable, pyJoin ['\n'] prime_links,
                pyJoin ['\n'] trailer_readable, pyJoin ['\n'] trailer_links,
                pyJoin ['\n'] vehicle_readable, pyJoin ['\n'] vehicle_links,
                user.user_id, user.email, user.full_name]
              match env.append row with
              | .error e => (some e, log1)
              | .ok _ => (none, { log1 with synced_to_sheets := true })

/-- The base64-stripping pass before the Mongo insert (server.py:361-368):
every tyre and vehicle-image entry loses its `photo_base64` key. -/
def stripForMongo (l : LogData) : LogData :=
  { l with
    prime_tyres := l.prime_tyres.map fun t => { t with photo_base64 := none }
    trailer_tyres := l.trailer_tyres.map fun t => { t with photo_base64 := none }
    vehicle_images := l.vehicle_images.map fun v => { v with photo_base64 := none } }

/-- What a completed submission produced: the HTTP response and the document
handed to `db.maintenance_logs.insert_one`. -/
structure SubmitOutcome where
  response : MaintenanceSubmitResponse
  persisted : LogData
deriving DecidableEq, Repr

/-- `submit_maintenance` (server.py:245-372) for a submission whose Mongo
insert succeeds: assemble `log_data`, run the best-effort sync block when the
sheets feature is on (its exception, if any, is swallowed), strip the raw
base64 payloads, persist, and answer success with the generated record id. -/
def submit_maintenance (useSheets : Bool) (env : SyncEnv)
    (req : MaintenanceSubmitRequest) (user : UserInfo) (rid ts : Str) :
    SubmitOutcome :=
  let log0 := initLogData req user rid ts
  let log1 := if useSheets then (runSyncE env req user rid ts log0).2 else log0
  { response :=
      { success := true
        message := ("Log submitted").toList
        record_id := rid }
    persisted := stripForMongo log1 }

/-! ## Helper lemmas about the string primitives -/

theorem pyStrip_nil : pyStrip [] = [] := rfl

/-- Both `dropWhile` passes of an already-stripped string are identities. -/
theorem pyStrip_parts (s : Str) (h : pyStrip s = s) :
    s.dropWhile isWs = s ∧ s.reverse.dropWhile isWs = s.reverse := by
  have hlen := congrArg List.length h
  unfold pyStrip at hlen
  simp only [List.length_reverse] at hlen
  have h1 : ((s.dropWhile isWs).reverse.dropWhile isWs).length ≤
      (s.dropWhile isWs).length := by
    simpa using (List.dropWhile_suffix (l := (s.dropWhile isWs).reverse) isWs).length_le
  have h2 : (s.dropWhile isWs).length ≤ s.length :=
    (List.dropWhile_suffix isWs).length_le
  have hA : s.dropWhile isWs = s :=
    (List.dropWhile_suffix isWs).eq_of_length (by omega)
  refine ⟨hA, ?_⟩
  unfold pyStrip at h
  rw [hA] at h
  have := congrArg List.reverse h
  simpa using this

/-- The head of a string that `dropWhile isWs` leaves unchanged is not
whitespace. -/
theorem not_ws_head (c : Char) (t : Str)
    (h : List.dropWhile isWs (c :: t) = c :: t) : isWs c = false := by
  by_contra hc
  simp only [Bool.not_eq_false] at hc
  rw [List.dropWhile_cons, if_pos hc] at h
  have hlen := congrArg List.length h
  have hle := (List.dropWhile_suffix (l := t) isWs).length_le
  simp at hlen
  omega

/-- `dropWhile isWs` leaves `a ++ b` unchanged when it leaves `a` unchanged
(and `b` unchanged in case `a` is empty). -/
theorem dropWhile_append_front (a b : Str) (ha : List.dropWhile isWs a = a)
    (hb : a = [] → List.dropWhile isWs b = b) :
    List.dropWhile isWs (a ++ b) = a ++ b := by
  cases a with
  | nil => simpa using hb rfl
  | cons c t =>
    have hc := not_ws_head c t ha
    simp [List.dropWhile_cons, hc]

/-- Stripping the space-prefixed copy of a stripped string recovers it. -/
theorem pyStrip_space_cons (num : Str) (hn : pyStrip num = num) :
    pyStrip (' ' :: num) = num := by
  obtain ⟨h1, h2⟩ := pyStrip_parts num hn
  unfold pyStrip
  rw [show List.dropWhile isWs (' ' :: num) = List.dropWhile isWs num by
    simp [List.dropWhile_cons, isWs], h1, h2]
  simp

/-- How `pyStrip` acts on an encoded readable line built from stripped parts:
only the trailing space of an empty value is removed. -/
theorem pyStrip_encoded_line (pos num : Str) (hp : pyStrip pos = pos)
    (hn : pyStrip num = num) :
    pyStrip (pos ++ ':' :: ' ' :: num) =
      if num = [] then pos ++ [':'] else pos ++ ':' :: ' ' :: num := by
  obtain ⟨hp1, hp2⟩ := pyStrip_parts pos hp
  obtain ⟨hn1, hn2⟩ := pyStrip_parts num hn
  have hfront : List.dropWhile isWs (pos ++ ':' :: ' ' :: num) =
      pos ++ ':' :: ' ' :: num := by
    refine dropWhile_append_front pos _ hp1 fun _ => ?_
    simp [List.dropWhile_cons, isWs]
  unfold pyStrip
  rw [hfront]
  cases num with
  | nil =>
    simp only [if_pos rfl]
    have : (pos ++ [':', ' ']).reverse = ' ' :: ':' :: pos.reverse := by simp
    rw [show pos ++ ':' :: ' ' :: ([] : Str) = pos ++ [':', ' '] from rfl, this]
    rw [show List.dropWhile isWs (' ' :: ':' :: pos.reverse) =
        ':' :: pos.reverse by simp [List.dropWhile_cons, isWs]]
    simp
  | cons d nt =>
    rw [if_neg (by simp)]
    have hrev : (pos ++ ':' :: ' ' :: (d :: nt)).reverse =
        (d :: nt).reverse ++ (' ' :: ':' :: pos.reverse) := by
      rw [show pos ++ ':' :: ' ' :: (d :: nt) = pos ++ [':', ' '] ++ (d :: nt) by simp]
      simp
    rw [hrev]
    rw [dropWhile_append_front _ _ hn2 (by simp)]
    rw [← hrev]
    simp

theorem isPrefixOf_append_self_true (l t : Str) : l.isPrefixOf (l ++ t) = true := by
  rw [List.isPrefixOf_iff_prefix]
  exact List.prefix_append l t

/-- `findSplit` locates the first separator occurrence: before a separator
whose head character does not occur in the prelude, the split lands exactly at
the boundary. -/
theorem findSplit_boundary (s' pre rest : Str) (hpre : ':' ∉ pre) :
    findSplit (':' :: s') (pre ++ (':' :: s') ++ rest) = some (pre, rest) := by
  induction pre with
  | nil =>
    show findSplit (':' :: s') (':' :: (s' ++ rest)) = some ([], rest)
    have hp : (':' :: s').isPrefixOf (':' :: (s' ++ rest)) = true :=
      isPrefixOf_append_self_true (':' :: s') rest
    unfold findSplit
    rw [if_pos hp]
    simp [List.drop_succ_cons, List.drop_left]
  | cons c p ih =>
    have hc : (':' : Char) ≠ c := fun h => hpre (h ▸ List.mem_cons_self c p)
    have hpre' : ':' ∉ p := fun h => hpre (List.mem_cons_of_mem _ h)
    show findSplit (':' :: s') (c :: (p ++ (':' :: s') ++ rest)) =
      some (c :: p, rest)
    have hbc : (':' == c) = false := by
      simp only [beq_eq_false_iff_ne, ne_eq]
      exact hc
    have hnp : (':' :: s').isPrefixOf (c :: (p ++ (':' :: s') ++ rest)) = false := by
      rw [List.isPrefixOf_cons₂, hbc, Bool.false_and]
    unfold findSplit
    rw [if_neg (by rw [hnp]; exact Bool.false_ne_true)]
    rw [ih hpre']
    rfl

/-- A single-character separator that does not occur is not found. -/
theorem findSplit_single_none (c : Char) (l : Str) (h : c ∉ l) :
    findSplit [c] l = none := by
  induction l with
  | nil => rfl
  | cons a t ih =>
    have hca : (c : Char) ≠ a := fun e => h (e ▸ List.mem_cons_self a t)
    have hnp : [c].isPrefixOf (a :: t) = false := by
      simp [List.isPrefixOf_cons₂]
      intro e
      exact absurd e hca
    unfold findSplit
    rw [if_neg (by simp [hnp]), ih fun hm => h (List.mem_cons_of_mem _ hm)]
    rfl

/-- `": "` does not occur in `pos ++ ":"` when `pos` is colon-free: the only
colon is the final character. -/
theorem findSplit_colonSpace_trailing (pre : Str) (hpre : ':' ∉ pre) :
    findSplit [':', ' '] (pre ++ [':']) = none := by
  induction pre with
  | nil =>
    show findSplit [':', ' '] [':'] = none
    have hnp : [':', ' '].isPrefixOf [':'] = false := by decide
    unfold findSplit
    rw [if_neg (by simp [hnp])]
    rfl
  | cons c p ih =>
    have hc : (':' : Char) ≠ c := fun h => hpre (h ▸ List.mem_cons_self c p)
    have hnp : [':', ' '].isPrefixOf (c :: (p ++ [':'])) = false := by
      simp [List.isPrefixOf_cons₂]
      intro e
      exact absurd e hc
    show findSplit [':', ' '] (c :: (p ++ [':'])) = none
    unfold findSplit
    rw [if_neg (by simp [hnp]), ih fun hm => hpre (List.mem_cons_of_mem _ hm)]
    rfl

/-- `splitCh` on a string not containing the separator returns the one piece. -/
theorem splitCh_not_mem (c : Char) (l : Str) (h : c ∉ l) : splitCh c l = [l] := by
  induction l with
  | nil => rfl
  | cons a t ih =>
    have ha : a ≠ c := fun e => h (e ▸ List.mem_cons_self a t)
    unfold splitCh
    rw [if_neg ha, ih fun hm => h (List.mem_cons_of_mem _ hm)]

/-- `splitCh` peels off a separator-free prelude. -/
theorem splitCh_append (c : Char) (l r : Str) (h : c ∉ l) :
    splitCh c (l ++ c :: r) = l :: splitCh c r := by
  induction l with
  | nil =>
    show splitCh c (c :: r) = [] :: splitCh c r
    conv_lhs => rw [splitCh]
    rw [if_pos rfl]
  | cons a t ih =>
    have ha : a ≠ c := fun e => h (e ▸ List.mem_cons_self a t)
    show splitCh c (a :: (t ++ c :: r)) = (a :: t) :: splitCh c r
    conv_lhs => rw [splitCh]
    rw [if_neg ha, ih fun hm => h (List.mem_cons_of_mem _ hm)]

/-- Splitting a `pyJoin` of separator-free pieces recovers the pieces. -/
theorem splitCh_pyJoin (c : Char) (xs : List Str) (hne : xs ≠ [])
    (h : ∀ x ∈ xs, c ∉ x) : splitCh c (pyJoin [c] xs) = xs := by
  induction xs with
  | nil => exact absurd rfl hne
  | cons x t ih =>
    cases t with
    | nil =>
      show splitCh c (pyJoin [c] [x]) = [x]
      rw [show pyJoin [c] [x] = x from rfl]
      exact splitCh_not_mem c x (h x (List.mem_cons_self x []))
    | cons y t' =>
      rw [show pyJoin [c] (x :: y :: t') = x ++ c :: pyJoin [c] (y :: t') by
        rw [show pyJoin [c] (x :: y :: t') = x ++ [c] ++ pyJoin [c] (y :: t')
          from rfl]
        simp]
      rw [splitCh_append c x _ (h x (List.mem_cons_self x _))]
      rw [ih (by simp) fun z hz => h z (List.mem_cons_of_mem _ hz)]

theorem readableLine_shape (e : ReadableEntry) :
    readableLine e = e.position ++ ':' :: ' ' :: e.number := by
  rw [readableLine, show (": ").toList = [':', ' '] from rfl]
  simp

/-- Parsing the stripped encoded readable line of a clean entry recovers it. -/
theorem parseReadableLine_clean (pos num : Str) (hp : pyStrip pos = pos)
    (hn : pyStrip num = num) (hc : ':' ∉ pos) :
    parseReadableLine (pyStrip (pos ++ ':' :: ' ' :: num)) = ⟨pos, num⟩ := by
  rw [pyStrip_encoded_line pos num hp hn]
  cases num with
  | nil =>
    rw [if_pos rfl]
    have hfs : findSplit [':'] (pos ++ [':']) = some (pos, []) := by
      have := findSplit_boundary [] pos [] hc
      simpa using this
    simp only [parseReadableLine, hfs]
    rw [hp]
    rfl
  | cons d nt =>
    rw [if_neg (by simp)]
    have hfs : findSplit [':'] (pos ++ ':' :: ' ' :: d :: nt) =
        some (pos, ' ' :: d :: nt) := by
      have := findSplit_boundary [] pos (' ' :: d :: nt) hc
      simpa using this
    simp only [parseReadableLine, hfs]
    rw [hp, pyStrip_space_cons _ hn]

theorem encode_readable_ne_nil (l : List ReadableEntry) (hne : l ≠ []) :
    encode_readable l ≠ [] := by
  cases l with
  | nil => exact absurd rfl hne
  | cons e t =>
    rw [encode_readable]
    cases t with
    | nil =>
      rw [show (e :: []).map readableLine = [readableLine e] from rfl,
        show pyJoin ['\n'] [readableLine e] = readableLine e from rfl,
        readableLine_shape]
      simp
    | cons y t' =>
      rw [show ((e :: y :: t').map readableLine) =
        readableLine e :: (y :: t').map readableLine from rfl]
      rw [show pyJoin ['\n'] (readableLine e :: (y :: t').map readableLine) =
        readableLine e ++ ['\n'] ++ pyJoin ['\n'] ((y :: t').map readableLine)
        from rfl]
      rw [readableLine_shape]
      simp

theorem linkLine_none (e : LinkInput) (h : e.link = none) :
    linkLine e = e.position ++ ':' :: ' ' :: ("(no photo)").toList := by
  rw [linkLine, h, show (": (no photo)").toList =
    [':', ' '] ++ ("(no photo)").toList from rfl]
  simp

theorem linkLine_some (e : LinkInput) (s : Str) (h : e.link = some s) :
    linkLine e = e.position ++ ':' :: ' ' :: s := by
  rw [linkLine, h, show (": ").toList = [':', ' '] from rfl]
  simp

/-- Parsing the stripped encoded link line of a clean entry yields the
position with the normalised link. -/
theorem parseLinksLine_clean (pos : Str) (link : Option Str)
    (hp : pyStrip pos = pos) (hc : ':' ∉ pos)
    (hl : ∀ s, link = some s → pyStrip s = s) :
    parseLinksLine (pyStrip (linkLine ⟨pos, link⟩)) =
      ⟨pos, normalizeLink link⟩ := by
  cases link with
  | none =>
    rw [linkLine_none ⟨pos, none⟩ rfl]
    have hnph : pyStrip ("(no photo)").toList = ("(no photo)").toList := by decide
    rw [pyStrip_encoded_line pos _ hp hnph, if_neg (by decide)]
    have hfs : findSplit [':', ' ']
        (pos ++ ':' :: ' ' :: ("(no photo)").toList) =
        some (pos, ("(no photo)").toList) := by
      have := findSplit_boundary [' '] pos (("(no photo)").toList) hc
      simpa using this
    simp only [parseLinksLine, show (": ").toList = [':', ' '] from rfl,
      show (":").toList = [':'] from rfl, containsSub, splitMax1, hfs,
      Option.isSome_some, if_true]
    rw [hp, hnph]
    simp [normalizeLink]
  | some s =>
    have hs : pyStrip s = s := hl s rfl
    rw [linkLine_some ⟨pos, some s⟩ s rfl]
    rw [pyStrip_encoded_line pos s hp hs]
    cases s with
    | nil =>
      rw [if_pos rfl]
      have hnofs : findSplit [':', ' '] (pos ++ [':']) = none :=
        findSplit_colonSpace_trailing pos hc
      have hfs : findSplit [':'] (pos ++ [':']) = some (pos, []) := by
        have := findSplit_boundary [] pos [] hc
        simpa using this
      simp only [parseLinksLine, show (": ").toList = [':', ' '] from rfl,
        show (":").toList = [':'] from rfl, containsSub, splitMax1, hnofs, hfs,
        Option.isSome_none, Bool.false_eq_true, if_false]
      rw [hp, show pyStrip ([] : Str) = [] from rfl]
      simp [normalizeLink]
    | cons d st =>
      rw [if_neg (by simp)]
      have hfs : findSplit [':', ' '] (pos ++ ':' :: ' ' :: d :: st) =
          some (pos, d :: st) := by
        have := findSplit_boundary [' '] pos (d :: st) hc
        simpa using this
      simp only [parseLinksLine, show (": ").toList = [':', ' '] from rfl,
        show (":").toList = [':'] from rfl, containsSub, splitMax1, hfs,
        Option.isSome_some, if_true]
      rw [hp, hs]
      simp only [normalizeLink]
      rcases eq_or_ne (d :: st) (("(no photo)").toList) with hph | hph
      · rw [if_pos (Or.inl hph), if_pos hph]
      · rw [if_neg (by rintro (h | h); exacts [hph h, List.noConfusion h]),
          if_neg hph]

theorem encode_links_ne_nil (l : List LinkInput) (hne : l ≠ []) :
    encode_links l ≠ [] := by
  cases l with
  | nil => exact absurd rfl hne
  | cons e t =>
    have hline : ∀ x : LinkInput, linkLine x ≠ [] := by
      intro x
      cases hx : x.link with
      | none => rw [linkLine_none x hx]; simp
      | some s => rw [linkLine_some x s hx]; simp
    rw [encode_links]
    cases t with
    | nil =>
      rw [show ((e :: []).map linkLine) = [linkLine e] from rfl,
        show pyJoin ['\n'] [linkLine e] = linkLine e from rfl]
      exact hline e
    | cons y t' =>
      rw [show ((e :: y :: t').map linkLine) =
        linkLine e :: (y :: t').map linkLine from rfl]
      rw [show pyJoin ['\n'] (linkLine e :: (y :: t').map linkLine) =
        linkLine e ++ ['\n'] ++ pyJoin ['\n'] ((y :: t').map linkLine) from rfl]
      intro habs
      simp [List.append_eq_nil] at habs

/-! ## C1: readable-list round trip -/

/-- C1 (counterexample): the round trip fails as soon as a position contains a
colon — the decoder splits at the first colon, which then falls inside the
position.  `[(position "a:b", number "c")]` encodes to `"a:b: c"` and decodes
to `[(position "a", number "b: c")]`. -/
theorem readable_roundtrip_counterexample :
    parse_readable_list (encode_readable [⟨("a:b").toList, ("c").toList⟩]) ≠
      [⟨("a:b").toList, ("c").toList⟩] := by decide

/-- C1 (amended): for every non-empty list of tyre entries whose positions are
whitespace-trimmed, colon-free and newline-free and whose numbers are
whitespace-trimmed and newline-free, decoding the readable encoding yields
exactly the same (position, number) pairs in the same order. -/
theorem readable_roundtrip_of_clean (l : List ReadableEntry) (hne : l ≠ [])
    (hok : ∀ e ∈ l, pyStrip e.position = e.position ∧
      pyStrip e.number = e.number ∧ ':' ∉ e.position ∧ '\n' ∉ e.position ∧
      '\n' ∉ e.number) :
    parse_readable_list (encode_readable l) = l := by
  have hlines : ∀ x ∈ l.map readableLine, '\n' ∉ x := by
    intro x hx
    rw [List.mem_map] at hx
    obtain ⟨e, he, rfl⟩ := hx
    obtain ⟨_, _, _, hpnl, hnnl⟩ := hok e he
    rw [readableLine_shape]
    simp only [List.mem_append, List.mem_cons]
    push_neg
    exact ⟨hpnl, by decide, by decide, hnnl⟩
  unfold parse_readable_list
  rw [if_neg (encode_readable_ne_nil l hne)]
  rw [encode_readable, splitCh_pyJoin '\n' (l.map readableLine)
    (fun h => hne (by simpa using h)) hlines]
  rw [List.map_map]
  have hkeep : ∀ x ∈ l.map (pyStrip ∘ readableLine), (!x.isEmpty) = true := by
    intro x hx
    rw [List.mem_map] at hx
    obtain ⟨e, he, rfl⟩ := hx
    obtain ⟨hp, hn, _, _, _⟩ := hok e he
    simp only [Function.comp_apply]
    rw [readableLine_shape, pyStrip_encoded_line _ _ hp hn]
    split
    · simp
    · simp
  rw [List.filter_eq_self.mpr hkeep, List.map_map]
  conv_rhs => rw [← List.map_id l]
  apply List.map_congr_left
  intro e he
  obtain ⟨hp, hn, hc, _, _⟩ := hok e he
  show parseReadableLine (pyStrip (readableLine e)) = id e
  rw [readableLine_shape, parseReadableLine_clean e.position e.number hp hn hc]
  rfl

/-- Witness for `readable_roundtrip_of_clean` at a concrete two-tyre list. -/
theorem readable_roundtrip_of_clean_witness :
    ([⟨("LF").toList, ("TY100").toList⟩, ⟨("RF").toList, ("TY101").toList⟩] :
      List ReadableEntry) ≠ [] ∧
    parse_readable_list (encode_readable
      [⟨("LF").toList, ("TY100").toList⟩, ⟨("RF").toList, ("TY101").toList⟩]) =
      [⟨("LF").toList, ("TY100").toList⟩, ⟨("RF").toList, ("TY101").toList⟩] :=
  ⟨by decide, readable_roundtrip_of_clean _ (by decide) (by decide)⟩

/-! ## C2: link-list round trip -/

/-- C2 (counterexample): a position containing `": "` breaks the round trip:
`[(position "a: b", link "x")]` encodes to `"a: b: x"`, which decodes to
`(position "a", link "b: x")` instead of `(position "a: b", link "x")`. -/
theorem links_roundtrip_counterexample :
    parse_links_list_as_strings
      (encode_links [⟨("a: b").toList, some (("x").toList)⟩]) ≠
      [⟨("a: b").toList, ("x").toList⟩] := by decide

/-- C2 (amended): for every list of link entries whose positions are
whitespace-trimmed, colon-free and newline-free and whose links (when present)
are whitespace-trimmed and newline-free, decoding the link encoding yields the
same positions in the same order with the links normalised — absent links,
empty links and the literal `(no photo)` placeholder all map to the empty
link. -/
theorem links_roundtrip_of_clean (l : List LinkInput)
    (hok : ∀ e ∈ l, pyStrip e.position = e.position ∧ ':' ∉ e.position ∧
      '\n' ∉ e.position ∧ ∀ s, e.link = some s → pyStrip s = s ∧ '\n' ∉ s) :
    parse_links_list_as_strings (encode_links l) =
      l.map fun e => ⟨e.position, normalizeLink e.link⟩ := by
  rcases eq_or_ne l [] with rfl | hne
  · decide
  have hlines : ∀ x ∈ l.map linkLine, '\n' ∉ x := by
    intro x hx
    rw [List.mem_map] at hx
    obtain ⟨e, he, rfl⟩ := hx
    obtain ⟨_, _, hpnl, hlink⟩ := hok e he
    cases hx : e.link with
    | none =>
      rw [linkLine_none e hx]
      simp only [List.mem_append, List.mem_cons]
      push_neg
      exact ⟨hpnl, by decide, by decide, by decide⟩
    | some s =>
      rw [linkLine_some e s hx]
      simp only [List.mem_append, List.mem_cons]
      push_neg
      exact ⟨hpnl, by decide, by decide, (hlink s hx).2⟩
  unfold parse_links_list_as_strings
  rw [if_neg (encode_links_ne_nil l hne)]
  rw [encode_links, splitCh_pyJoin '\n' (l.map linkLine)
    (fun h => hne (by simpa using h)) hlines]
  rw [List.map_map]
  have hkeep : ∀ x ∈ l.map (pyStrip ∘ linkLine), (!x.isEmpty) = true := by
    intro x hx
    rw [List.mem_map] at hx
    obtain ⟨e, he, rfl⟩ := hx
    obtain ⟨hp, _, _, hlink⟩ := hok e he
    simp only [Function.comp_apply]
    cases hx : e.link with
    | none =>
      rw [linkLine_none e hx, pyStrip_encoded_line _ _ hp (by decide)]
      rw [if_neg (by decide)]
      simp
    | some s =>
      rw [linkLine_some e s hx, pyStrip_encoded_line _ _ hp (hlink s hx).1]
      split
      · simp
      · simp
  rw [List.filter_eq_self.mpr hkeep, List.map_map]
  apply List.map_congr_left
  intro e he
  obtain ⟨hp, hc, _, hlink⟩ := hok e he
  show parseLinksLine (pyStrip (linkLine e)) = ⟨e.position, normalizeLink e.link⟩
  exact parseLinksLine_clean e.position e.link hp hc fun s hs => (hlink s hs).1

/-- Witness for `links_roundtrip_of_clean` at a concrete list exercising all
three link shapes (absent, empty, present). -/
theorem links_roundtrip_of_clean_witness :
    parse_links_list_as_strings (encode_links
      [⟨("LF").toList, none⟩, ⟨("RF").toList, some []⟩,
        ⟨("LR").toList, some (("x").toList)⟩]) =
      [⟨("LF").toList, []⟩, ⟨("RF").toList, []⟩,
        ⟨("LR").toList, ("x").toList⟩] :=
  links_roundtrip_of_clean _ (by decide)

/-! ## C8: the decoders are total and degrade gracefully -/

theorem splitCh_cons_self (c : Char) (s : Str) :
    splitCh c (c :: s) = [] :: splitCh c s := by
  conv_lhs => rw [splitCh]
  rw [if_pos rfl]

/-- A separator starting with a colon is never found in a colon-free string. -/
theorem findSplit_head_colon_not_mem (s' l : Str) (h : ':' ∉ l) :
    findSplit (':' :: s') l = none := by
  induction l with
  | nil =>
    unfold findSplit
    rw [if_neg (by simp)]
  | cons a t ih =>
    have hca : (':' : Char) ≠ a := fun e => h (e ▸ List.mem_cons_self a t)
    have hbc : (':' == a) = false := by
      simp only [beq_eq_false_iff_ne, ne_eq]
      exact hca
    have hnp : (':' :: s').isPrefixOf (a :: t) = false := by
      rw [List.isPrefixOf_cons₂, hbc, Bool.false_and]
    unfold findSplit
    rw [if_neg (by rw [hnp]; exact Bool.false_ne_true),
      ih fun hm => h (List.mem_cons_of_mem _ hm)]
    rfl

/-- C8: both decoders are total functions; the empty blob decodes to the empty
list, a leading blank line is dropped, and a trimmed non-blank line with no
colon decodes to an entry whose position is the whole line and whose
number/photo_link is empty. -/
theorem decoders_total_behavior :
    parse_readable_list [] = [] ∧ parse_links_list_as_strings [] = [] ∧
    (∀ s, parse_readable_list ('\n' :: s) = parse_readable_list s) ∧
    (∀ s, parse_links_list_as_strings ('\n' :: s) =
      parse_links_list_as_strings s) ∧
    (∀ s, pyStrip s = s → s ≠ [] → ':' ∉ s → '\n' ∉ s →
      parse_readable_list s = [⟨s, []⟩] ∧
      parse_links_list_as_strings s = [⟨s, []⟩]) := by
  refine ⟨rfl, rfl, ?_, ?_, ?_⟩
  · intro s
    cases s with
    | nil => decide
    | cons a t =>
      unfold parse_readable_list
      rw [if_neg (by simp), if_neg (by simp), splitCh_cons_self]
      simp [pyStrip_nil]
  · intro s
    cases s with
    | nil => decide
    | cons a t =>
      unfold parse_links_list_as_strings
      rw [if_neg (by simp), if_neg (by simp), splitCh_cons_self]
      simp [pyStrip_nil]
  · intro s hstrip hne hc hnl
    have hsplit : splitCh '\n' s = [s] := splitCh_not_mem '\n' s hnl
    have hfsr : findSplit [':'] s = none := findSplit_single_none ':' s hc
    have hfsl : findSplit [':', ' '] s = none :=
      findSplit_head_colon_not_mem [' '] s hc
    constructor
    · unfold parse_readable_list
      rw [if_neg hne, hsplit]
      rw [show ([s].map pyStrip) = [s] by rw [List.map_cons]; rw [hstrip]; rfl]
      rw [List.filter_eq_self.mpr (by intro x hx; simp at hx; subst hx; simpa using hne)]
      rw [List.map_cons]
      simp only [parseReadableLine, hfsr]
      rfl
    · unfold parse_links_list_as_strings
      rw [if_neg hne, hsplit]
      rw [show ([s].map pyStrip) = [s] by rw [List.map_cons]; rw [hstrip]; rfl]
      rw [List.filter_eq_self.mpr (by intro x hx; simp at hx; subst hx; simpa using hne)]
      rw [List.map_cons]
      simp only [parseLinksLine, show (": ").toList = [':', ' '] from rfl,
        show (":").toList = [':'] from rfl, containsSub, splitMax1, hfsl, hfsr,
        Option.isSome_none, Bool.false_eq_true, if_false]
      rw [show ([s].headD []) = s from rfl, hstrip]
      rfl

/-- Witness for `decoders_total_behavior` at the no-colon line `"LF"`. -/
theorem decoders_total_behavior_witness :
    parse_readable_list (("LF").toList) = [⟨("LF").toList, []⟩] ∧
    parse_links_list_as_strings (("LF").toList) = [⟨("LF").toList, []⟩] :=
  decoders_total_behavior.2.2.2.2 (("LF").toList) (by decide) (by decide)
    (by decide) (by decide)

/-! ## C3, C6, C7: the submission path -/

/-- An exception anywhere in the sync block leaves `synced_to_sheets` exactly
as it was when the block started: the flag is only flipped after the final
append succeeds. -/
theorem runSyncE_error_synced (env : SyncEnv) (req : MaintenanceSubmitRequest)
    (user : UserInfo) (rid ts : Str) (log0 : LogData) (e : Str)
    (h : (runSyncE env req user rid ts log0).1 = some e) :
    (runSyncE env req user rid ts log0).2.synced_to_sheets =
      log0.synced_to_sheets := by
  revert h
  unfold runSyncE
  dsimp only
  repeat' split
  all_goals intro h
  all_goals first
    | rfl
    | simp at h

/-- C3: when external sync is enabled and any step of the sync block raises,
the submission still returns success with the generated record id, and the
persisted document still has `synced_to_sheets = false`. -/
theorem sync_failure_still_succeeds (env : SyncEnv)
    (req : MaintenanceSubmitRequest) (user : UserInfo) (rid ts e : Str)
    (h : (runSyncE env req user rid ts (initLogData req user rid ts)).1 =
      some e) :
    (submit_maintenance true env req user rid ts).response.success = true ∧
    (submit_maintenance true env req user rid ts).response.record_id = rid ∧
    (submit_maintenance true env req user rid ts).persisted.synced_to_sheets =
      false := by
  refine ⟨rfl, rfl, ?_⟩
  calc (submit_maintenance true env req user rid ts).persisted.synced_to_sheets
      = (runSyncE env req user rid ts
          (initLogData req user rid ts)).2.synced_to_sheets := rfl
    _ = (initLogData req user rid ts).synced_to_sheets :=
        runSyncE_error_synced env req user rid ts _ e h
    _ = false := rfl

/-- A sync environment in which every external call raises. -/
def env0 : SyncEnv :=
  ⟨fun _ _ => .error (("boom").toList), fun _ => .error (("boom").toList)⟩

/-- A sync environment in which every upload yields the link `"L"` and the
append succeeds. -/
def env1 : SyncEnv :=
  ⟨fun _ _ => .ok (("L").toList), fun _ => .ok ()⟩

/-- A minimal valid request. -/
def req0 : MaintenanceSubmitRequest :=
  { vehicle_number := ("HR55AZ3114").toList }

/-- A request with one prime tyre carrying a photo payload. -/
def req1 : MaintenanceSubmitRequest :=
  { vehicle_number := ("HR55AZ3114").toList
    prime_tyres :=
      [⟨("LF").toList, ("TY100").toList, some (("IMG").toList), none⟩] }

/-- A resolved submitter identity. -/
def user0 : UserInfo :=
  ⟨("u1").toList, ("u@example.com").toList, ("U One").toList⟩

/-- A concrete generated record id. -/
def rid0 : Str := ("rid-1").toList

/-- A concrete submission timestamp. -/
def ts0 : Str := ("2026-01-01T00:00:00+00:00").toList

/-- Witness for `sync_failure_still_succeeds`: under `env0` the very first
upload raises, and the submission still succeeds unsynced. -/
theorem sync_failure_still_succeeds_witness :
    (runSyncE env0 req0 user0 rid0 ts0 (initLogData req0 user0 rid0 ts0)).1 =
      some (("boom").toList) ∧
    (submit_maintenance true env0 req0 user0 rid0 ts0).response.success = true ∧
    (submit_maintenance true env0 req0 user0 rid0 ts0).response.record_id =
      rid0 ∧
    (submit_maintenance true env0 req0 user0 rid0
      ts0).persisted.synced_to_sheets = false :=
  ⟨by decide,
    sync_failure_still_succeeds env0 req0 user0 rid0 ts0 (("boom").toList)
      (by decide)⟩

/-- When the whole sync block completes, the final `log_data` is the initial
one enriched with the three battery/odometer links and the flipped sync flag —
and nothing else: in particular the tyre and image lists are untouched. -/
theorem runSyncE_ok_state (env : SyncEnv) (req : MaintenanceSubmitRequest)
    (user : UserInfo) (rid ts : Str) (log0 : LogData) (b1 b2 b3 : Str)
    (h1 : env.upload req.battery1_photo_base64
      (("battery1_").toList ++ req.vehicle_number ++ ("_").toList ++ rid ++
        (".jpg").toList) = .ok b1)
    (h2 : env.upload req.battery2_photo_base64
      (("battery2_").toList ++ req.vehicle_number ++ ("_").toList ++ rid ++
        (".jpg").toList) = .ok b2)
    (h3 : env.upload req.odometer_photo_base64
      (("odometer_").toList ++ req.vehicle_number ++ ("_").toList ++ rid ++
        (".jpg").toList) = .ok b3)
    (h : (runSyncE env req user rid ts log0).1 = none) :
    (runSyncE env req user rid ts log0).2 =
      { log0 with
        battery1_photo_link := strToOptLink b1
        battery2_photo_link := strToOptLink b2
        odometer_photo_link := strToOptLink b3
        synced_to_sheets := true } := by
  revert h
  unfold runSyncE
  rw [h1, h2, h3]
  dsimp only
  repeat' split
  all_goals intro h
  all_goals first
    | rfl
    | simp at h

/-- C6 (counterexample): with every upload succeeding (producing the link
`"L"`) and the append succeeding, the sync block completes — yet the persisted
prime-tyre entry still has `photo_link = none`: the per-tyre links are only
encoded into the appended row, never written back onto the record. -/
theorem tyre_link_not_written_back :
    (submit_maintenance true env1 req1 user0 rid0
      ts0).persisted.synced_to_sheets = true ∧
    (submit_maintenance true env1 req1 user0 rid0
      ts0).persisted.prime_tyres.map TyreInfo.photo_link = [none] ∧
    (submit_maintenance true env1 req1 user0 rid0
      ts0).persisted.prime_tyres.map TyreInfo.photo_link ≠
      [some (("L").toList)] := by decide

/-- C6 (amended): when the sync block completes, `synced_to_sheets` becomes
true and the three battery/odometer links are written back onto the record;
the tyre and vehicle-image `photo_link` fields, however, are carried through
from the request unchanged. -/
theorem sync_success_writeback (env : SyncEnv) (req : MaintenanceSubmitRequest)
    (user : UserInfo) (rid ts : Str) (b1 b2 b3 : Str)
    (h1 : env.upload req.battery1_photo_base64
      (("battery1_").toList ++ req.vehicle_number ++ ("_").toList ++ rid ++
        (".jpg").toList) = .ok b1)
    (h2 : env.upload req.battery2_photo_base64
      (("battery2_").toList ++ req.vehicle_number ++ ("_").toList ++ rid ++
        (".jpg").toList) = .ok b2)
    (h3 : env.upload req.odometer_photo_base64
      (("odometer_").toList ++ req.vehicle_number ++ ("_").toList ++ rid ++
        (".jpg").toList) = .ok b3)
    (h : (runSyncE env req user rid ts (initLogData req user rid ts)).1 =
      none) :
    (submit_maintenance true env req user rid ts).persisted.synced_to_sheets =
      true ∧
    (submit_maintenance true env req user rid ts).persisted.battery1_photo_link =
      strToOptLink b1 ∧
    (submit_maintenance true env req user rid ts).persisted.battery2_photo_link =
      strToOptLink b2 ∧
    (submit_maintenance true env req user rid ts).persisted.odometer_photo_link =
      strToOptLink b3 ∧
    (submit_maintenance true env req user rid ts).persisted.prime_tyres.map
      TyreInfo.photo_link = req.prime_tyres.map TyreInfo.photo_link ∧
    (submit_maintenance true env req user rid ts).persisted.trailer_tyres.map
      TyreInfo.photo_link = req.trailer_tyres.map TyreInfo.photo_link ∧
    (submit_maintenance true env req user rid ts).persisted.vehicle_images.map
      VehicleImage.photo_link = req.vehicle_images.map VehicleImage.photo_link := by
  have hstate := runSyncE_ok_state env req user rid ts
    (initLogData req user rid ts) b1 b2 b3 h1 h2 h3 h
  have hpers : (submit_maintenance true env req user rid ts).persisted =
      stripForMongo { initLogData req user rid ts with
        battery1_photo_link := strToOptLink b1
        battery2_photo_link := strToOptLink b2
        odometer_photo_link := strToOptLink b3
        synced_to_sheets := true } := by
    calc (submit_maintenance true env req user rid ts).persisted
        = stripForMongo (runSyncE env req user rid ts
            (initLogData req user rid ts)).2 := rfl
      _ = _ := by rw [hstate]
  rw [hpers]
  refine ⟨rfl, rfl, rfl, rfl, ?_, ?_, ?_⟩
  all_goals
    show (List.map _ (List.map _ _)) = _
    rw [List.map_map]
    rfl

/-- Witness for `sync_success_writeback` under `env1` at `req1`. -/
theorem sync_success_writeback_witness :
    (runSyncE env1 req1 user0 rid0 ts0 (initLogData req1 user0 rid0 ts0)).1 =
      none ∧
    (submit_maintenance true env1 req1 user0 rid0
      ts0).persisted.synced_to_sheets = true ∧
    (submit_maintenance true env1 req1 user0 rid0
      ts0).persisted.battery1_photo_link = strToOptLink (("L").toList) :=
  ⟨by decide,
    (sync_success_writeback env1 req1 user0 rid0 ts0 (("L").toList)
      (("L").toList) (("L").toList) (by decide) (by decide) (by decide)
      (by decide)).1,
    (sync_success_writeback env1 req1 user0 rid0 ts0 (("L").toList)
      (("L").toList) (("L").toList) (by decide) (by decide) (by decide)
      (by decide)).2.1⟩

/-- C7: whatever the sync feature flag, environment and request, the document
handed to the durable store carries no raw base64 payload: every persisted
tyre and vehicle-image entry has `photo_base64 = none` (and the `LogData`
shape has no top-level base64 field at all). -/
theorem persisted_has_no_base64 (useSheets : Bool) (env : SyncEnv)
    (req : MaintenanceSubmitRequest) (user : UserInfo) (rid ts : Str) :
    (∀ t ∈ (submit_maintenance useSheets env req user rid
      ts).persisted.prime_tyres, t.photo_base64 = none) ∧
    (∀ t ∈ (submit_maintenance useSheets env req user rid
      ts).persisted.trailer_tyres, t.photo_base64 = none) ∧
    (∀ v ∈ (submit_maintenance useSheets env req user rid
      ts).persisted.vehicle_images, v.photo_base64 = none) := by
  refine ⟨?_, ?_, ?_⟩
  · intro t ht
    simp only [submit_maintenance, stripForMongo, List.mem_map] at ht
    obtain ⟨t', _, rfl⟩ := ht
    rfl
  · intro t ht
    simp only [submit_maintenance, stripForMongo, List.mem_map] at ht
    obtain ⟨t', _, rfl⟩ := ht
    rfl
  · intro v hv
    simp only [submit_maintenance, stripForMongo, List.mem_map] at hv
    obtain ⟨v', _, rfl⟩ := hv
    rfl

/-! ## C4, C5: the read endpoints -/

/-- Sheet row with record id `A1` and vehicle `HR01`. -/
def rowA1 : Row :=
  rowOf [(("Record ID").toList, ("A1").toList),
    (("Vehicle Number").toList, ("HR01").toList)]

/-- Sheet row with record id `A2` and vehicle `HR02`. -/
def rowA2 : Row :=
  rowOf [(("Record ID").toList, ("A2").toList),
    (("Vehicle Number").toList, ("HR02").toList)]

/-- C4: the exact-id and vehicle-substring lookups behave as specified, but
the not-found outcome is *not* a distinct 404: the `HTTPException(404)` raised
inside the `try` is caught by the handler's own blanket `except Exception` and
re-raised as a 500 — the not-found outcome is conflated with internal error. -/
theorem not_found_conflated_to_500 :
    get_single_log (("A1").toList) [rowA1, rowA2] =
      .ok (.record (sheet_row_to_json rowA1)) ∧
    get_single_log (("hr0").toList) [rowA1, rowA2] =
      .ok (.logs [sheet_row_to_json rowA1, sheet_row_to_json rowA2]) ∧
    get_single_log_inner (("ZZZ").toList) [rowA1, rowA2] =
      .error (404, ("Record not found").toList) ∧
    get_single_log (("ZZZ").toList) [rowA1, rowA2] =
      .error (500, ("Failed to fetch log").toList) := by decide

/-- Sheet row with record id `A1` and vehicle `HR55AZ3114`. -/
def rowHR : Row :=
  rowOf [(("Record ID").toList, ("A1").toList),
    (("Vehicle Number").toList, ("HR55AZ3114").toList)]

/-- Sheet row with record id `A2` and vehicle `NL01AE4999`. -/
def rowNL : Row :=
  rowOf [(("Record ID").toList, ("A2").toList),
    (("Vehicle Number").toList, ("NL01AE4999").toList)]

/-- C5 (counterexample): querying the list endpoint with the filter `hr55`
still returns the `NL01AE4999` record, whose vehicle number does not contain
the filter — the handler declares no `vehicle` query parameter, so the filter
is ignored. -/
theorem vehicle_filter_ignored_counterexample :
    (get_logs (some (("hr55").toList)) [rowHR, rowNL]).logs.map
      SheetRecord.vehicle_number =
      [("HR55AZ3114").toList, ("NL01AE4999").toList] ∧
    containsSub (pyLower (("hr55").toList)) (pyLower (("NL01AE4999").toList)) =
      false := by decide

/-- C5 (amended): the list endpoint ignores any vehicle filter and returns
every record from the tabular source, converted, in source order (no
filtering, no re-sorting). -/
theorem get_logs_returns_all (vehicle : Option Str) (rows : List Row) :
    (get_logs vehicle rows).logs = rows.map sheet_row_to_json := rfl

/-! ## C9: validation -/

/-- C9 (counterexample): a submission with `vehicle_number` present but equal
to the empty string passes validation — pydantic only requires the field to
be present, not non-empty. -/
theorem empty_vehicle_number_accepted :
    validateSubmitRequest { vehicle_number := some [] } =
      .ok { vehicle_number := [] } := by decide

/-- C9 (amended): validation rejects a submission exactly when the
`vehicle_number` field is missing from the payload; in particular empty tyre
and image lists (or a present-but-empty vehicle number) never cause
rejection.  Validation is a pure function of the payload, run before any
collaborator is touched. -/
theorem validation_rejects_iff_missing (raw : RawSubmitPayload) :
    (∃ e, validateSubmitRequest raw = .error e) ↔ raw.vehicle_number = none := by
  cases hv : raw.vehicle_number with
  | none => simp [validateSubmitRequest, hv]
  | some v => simp [validateSubmitRequest, hv]

/-! ## C10: tabular rows always report themselves synced -/

/-- C10: `sheet_row_to_json` sets `synced_to_sheets = true` unconditionally,
whatever the row contains. -/
theorem sheet_rows_always_synced (row : Row) :
    (sheet_row_to_json row).synced_to_sheets = true := rfl

end VehicleMaintenance
